import Mathlib

/-!
Shallow embedding of the eutrader market-making bot (Rust) in Lean 4.

`rust_decimal::Decimal` values are embedded as exact rationals `ℚ`;
all arithmetic the embedded code performs (add, sub, mul, div, abs,
min, max, floor, ceil, comparisons) is the corresponding exact
operation on `ℚ`.  Timestamps are embedded as `ℕ` (they are never
inspected by the logic under verification).
-/

namespace Eutrader

/-- `Side` from `crates/core/src/types.rs`: Buy or Sell. -/
inductive Side where
  | buy
  | sell
deriving DecidableEq, Repr

/-- `Fill` from `crates/core/src/types.rs`. -/
structure Fill where
  token_id : String
  side : Side
  price : ℚ
  size : ℚ
  timestamp : ℕ
  is_simulated : Bool
deriving DecidableEq, Repr

/-- `InventoryPosition` from `crates/core/src/types.rs`. -/
structure InventoryPosition where
  token_id : String
  net_position : ℚ
  avg_entry : ℚ
  realized_pnl : ℚ
  fill_count : ℕ
deriving DecidableEq, Repr

/-- `InventoryPosition::new` — a zeroed position (`Default` in Rust). -/
def InventoryPosition.new (token_id : String) : InventoryPosition :=
  { token_id := token_id, net_position := 0, avg_entry := 0, realized_pnl := 0, fill_count := 0 }

/-- The signed size of a fill, as computed at the top of `apply_fill`:
`Buy => fill.size`, `Sell => -fill.size`. -/
def Fill.signedSize (fill : Fill) : ℚ :=
  match fill.side with
  | Side.buy => fill.size
  | Side.sell => -fill.size

/-- `InventoryPosition::apply_fill` from `crates/core/src/types.rs` (lines 79–117),
as a pure state transformer. -/
def InventoryPosition.applyFill (self : InventoryPosition) (fill : Fill) : InventoryPosition :=
  let signed_size := fill.signedSize
  let old_position := self.net_position
  let net_position := old_position + signed_size
  if (old_position ≥ 0 ∧ signed_size > 0) ∨ (old_position ≤ 0 ∧ signed_size < 0) then
    -- Increasing position — update avg entry
    let old_cost := |old_position| * self.avg_entry
    let new_cost := |signed_size| * fill.price
    let total_size := |old_position| + |signed_size|
    let avg_entry := if total_size > 0 then (old_cost + new_cost) / total_size else self.avg_entry
    { self with net_position := net_position, avg_entry := avg_entry,
                fill_count := self.fill_count + 1 }
  else
    -- Reducing or flipping — realize PnL on the closed portion
    let closed_size := min |signed_size| |old_position|
    let pnl_per_unit :=
      match fill.side with
      | Side.sell => fill.price - self.avg_entry
      | Side.buy => self.avg_entry - fill.price
    let realized_pnl := self.realized_pnl + closed_size * pnl_per_unit
    -- If we flipped sides, reset avg entry to fill price
    let avg_entry :=
      if (net_position > 0 ∧ old_position < 0) ∨ (net_position < 0 ∧ old_position > 0)
      then fill.price else self.avg_entry
    { self with net_position := net_position, avg_entry := avg_entry,
                realized_pnl := realized_pnl, fill_count := self.fill_count + 1 }

/-- `InventoryPosition::unrealized_pnl` from `crates/core/src/types.rs` (lines 119–127). -/
def InventoryPosition.unrealizedPnl (self : InventoryPosition) (mid_price : ℚ) : ℚ :=
  if self.net_position > 0 then
    self.net_position * (mid_price - self.avg_entry)
  else if self.net_position < 0 then
    |self.net_position| * (self.avg_entry - mid_price)
  else
    0

/-- `MarketSnapshot` from `crates/core/src/types.rs`. -/
structure MarketSnapshot where
  token_id : String
  best_bid : ℚ
  best_ask : ℚ
  midpoint : ℚ
  spread : ℚ
  timestamp : ℕ
deriving DecidableEq, Repr

/-- `OpenOrder` from `crates/core/src/types.rs` (`OrderId` embedded as its `String`). -/
structure OpenOrder where
  id : String
  token_id : String
  side : Side
  price : ℚ
  size : ℚ
deriving DecidableEq, Repr

/-- `Quote` from `crates/core/src/types.rs`. -/
structure Quote where
  token_id : String
  bid_price : ℚ
  ask_price : ℚ
  size : ℚ
deriving DecidableEq, Repr

/-- `MarketConfig` from `crates/core/src/config.rs`. -/
structure MarketConfig where
  name : String
  token_id : String
  spread_bps : ℕ
  size : ℚ
  max_inventory : ℚ
  skew_factor : ℚ
deriving DecidableEq, Repr

/-- `RiskConfig` from `crates/core/src/config.rs`. -/
structure RiskConfig where
  max_position_per_market : ℚ
  max_total_exposure : ℚ
  max_unrealized_loss : ℚ
  quote_refresh_interval_ms : ℕ
deriving DecidableEq, Repr

/-- `floor_to_tick` from `crates/strategy/src/quoter.rs`:
`(value / tick).floor() * tick` (Decimal floor rounds toward −∞, as `Int.floor`). -/
def floorToTick (value tick : ℚ) : ℚ :=
  (⌊value / tick⌋ : ℚ) * tick

/-- `ceil_to_tick` from `crates/strategy/src/quoter.rs`:
`(value / tick).ceil() * tick`. -/
def ceilToTick (value tick : ℚ) : ℚ :=
  (⌈value / tick⌉ : ℚ) * tick

namespace Quoter

/-- The half spread computed in `Quoter::quote`:
`Decimal::from(config.spread_bps) / 10000 / 2`. -/
def halfSpread (config : MarketConfig) : ℚ :=
  (config.spread_bps : ℚ) / 10000 / 2

/-- The inventory skew computed in `Quoter::quote`:
`inventory.net_position * config.skew_factor`. -/
def skew (inventory : InventoryPosition) (config : MarketConfig) : ℚ :=
  inventory.net_position * config.skew_factor

/-- The bid of `Quoter::quote` before tick rounding and clamping:
`mid - half_spread - skew`. -/
def rawBid (snapshot : MarketSnapshot) (inventory : InventoryPosition)
    (config : MarketConfig) : ℚ :=
  snapshot.midpoint - halfSpread config - skew inventory config

/-- The ask of `Quoter::quote` before tick rounding and clamping:
`mid + half_spread - skew`. -/
def rawAsk (snapshot : MarketSnapshot) (inventory : InventoryPosition)
    (config : MarketConfig) : ℚ :=
  snapshot.midpoint + halfSpread config - skew inventory config

/-- The bid of `Quoter::quote` after tick rounding (floor) and clamping:
`floor_to_tick(bid, 0.01).max(0.01).min(0.99)`. -/
def alignedBid (snapshot : MarketSnapshot) (inventory : InventoryPosition)
    (config : MarketConfig) : ℚ :=
  min (max (floorToTick (rawBid snapshot inventory config) (1/100)) (1/100)) (99/100)

/-- The ask of `Quoter::quote` after tick rounding (ceil) and clamping:
`ceil_to_tick(ask, 0.01).max(0.01).min(0.99)`. -/
def alignedAsk (snapshot : MarketSnapshot) (inventory : InventoryPosition)
    (config : MarketConfig) : ℚ :=
  min (max (ceilToTick (rawAsk snapshot inventory config) (1/100)) (1/100)) (99/100)

/-- The size computation at the end of `Quoter::quote` (lines 70–79):
size reduction near max inventory. -/
def quoteSize (inventory : InventoryPosition) (config : MarketConfig) : ℚ :=
  if config.max_inventory > 0 then
    let utilization := |inventory.net_position| / config.max_inventory
    if utilization > 8/10 then
      -- Linear reduction: at 80% usage keep full size, at 100% reduce to 20%
      let reduction := 1 - (utilization - 8/10) / (2/10) * (8/10)
      max (config.size * max reduction (2/10)) 1
    else config.size
  else config.size

/-- `Quoter::quote` from `crates/strategy/src/quoter.rs` (lines 29–87). -/
def quote (snapshot : MarketSnapshot) (inventory : InventoryPosition)
    (config : MarketConfig) : Option Quote :=
  let bid := alignedBid snapshot inventory config
  let ask := alignedAsk snapshot inventory config
  if bid ≥ ask then none
  else some { token_id := snapshot.token_id, bid_price := bid, ask_price := ask,
              size := quoteSize inventory config }

end Quoter

/-- The error type of `crates/core/src/error.rs`, restricted to the variant the
risk manager produces. -/
inductive RError where
  | riskBreach (msg : String)
deriving DecidableEq, Repr

namespace RiskManager

/-- `RiskManager::check_order` from `crates/strategy/src/risk.rs` (lines 35–65). -/
def checkOrder (inventory : InventoryPosition) (quote : Quote)
    (config : RiskConfig) : Except RError Unit :=
  let position_after_buy := inventory.net_position + quote.size
  if |position_after_buy| > config.max_position_per_market then
    Except.error (RError.riskBreach "bid fill would breach per-market limit")
  else
    let position_after_sell := inventory.net_position - quote.size
    if |position_after_sell| > config.max_position_per_market then
      Except.error (RError.riskBreach "ask fill would breach per-market limit")
    else
      Except.ok ()

/-- `RiskManager::check_portfolio` from `crates/strategy/src/risk.rs` (lines 71–93). -/
def checkPortfolio (positions : List InventoryPosition)
    (config : RiskConfig) : Except RError Unit :=
  let total_exposure := (positions.map (fun p => |p.net_position|)).sum
  if total_exposure > config.max_total_exposure then
    Except.error (RError.riskBreach "total exposure exceeds max")
  else
    Except.ok ()

/-- The parameterless `RiskManager::should_kill_switch` from
`crates/strategy/src/risk.rs` (lines 100–130): evaluates each position's
unrealized P&L at `mid = avg_entry`. -/
def shouldKillSwitch (positions : List InventoryPosition)
    (config : RiskConfig) : Bool :=
  let total_unrealized := (positions.map (fun p => p.unrealizedPnl p.avg_entry)).sum
  decide (total_unrealized < 0 ∧ |total_unrealized| > config.max_unrealized_loss)

/-- `RiskManager::should_kill_switch_with_prices` from
`crates/strategy/src/risk.rs` (lines 135–164), for equal-length inputs. -/
def shouldKillSwitchWithPrices (positions : List InventoryPosition)
    (mid_prices : List ℚ) (config : RiskConfig) : Bool :=
  let total_unrealized :=
    ((positions.zip mid_prices).map (fun pm => pm.1.unrealizedPnl pm.2)).sum
  decide (total_unrealized < 0 ∧ |total_unrealized| > config.max_unrealized_loss)

end RiskManager

namespace PaperExecutor

/-- The fill condition of `PaperExecutor::check_fills`
(`crates/engine/src/paper.rs`, lines 68–78): the order is for the snapshot's
token and crosses the market (Buy: `best_ask <= price`; Sell: `best_bid >= price`). -/
def crosses (snapshot : MarketSnapshot) (order : OpenOrder) : Bool :=
  decide (order.token_id = snapshot.token_id) &&
    match order.side with
    | Side.buy => decide (snapshot.best_ask ≤ order.price)
    | Side.sell => decide (snapshot.best_bid ≥ order.price)

/-- The `Fill` built for a crossing order in `check_fills` (lines 81–88):
the order's own token, side, price and size, `is_simulated = true`. -/
def fillOf (now : ℕ) (order : OpenOrder) : Fill :=
  { token_id := order.token_id, side := order.side, price := order.price,
    size := order.size, timestamp := now, is_simulated := true }

/-- `PaperExecutor::check_fills` (lines 63–115) over the open-order map,
embedded as a list keyed by (unique) order ids: collect a fill for every
crossing order, then remove exactly the orders whose id was filled. -/
def checkFills (now : ℕ) (orders : List OpenOrder)
    (snapshot : MarketSnapshot) : List Fill × List OpenOrder :=
  let filled := orders.filter (crosses snapshot)
  let filled_ids := filled.map (fun o => o.id)
  (filled.map (fillOf now), orders.filter (fun o => ! filled_ids.contains o.id))

/-- The order ids filled over a whole run of `check_fills` calls, one per
snapshot, starting from a given open-order list. -/
def runFilledIds (orders : List OpenOrder) : List MarketSnapshot → List String
  | [] => []
  | s :: ss =>
      (orders.filter (crosses s)).map (fun o => o.id) ++
        runFilledIds (checkFills 0 orders s).2 ss

end PaperExecutor

/-- An observable executor call issued by `OrderManager::reconcile_orders`. -/
inductive Action where
  | place (token_id : String) (side : Side) (price : ℚ) (size : ℚ)
  | cancel (id : String)
deriving DecidableEq, Repr

namespace OrderManager

/-- `OrderManager::reconcile_orders` from `crates/engine/src/manager.rs`
(lines 178–228), as the list of executor calls it issues, in order. -/
def reconcileOrders (current_orders : List OpenOrder) (token_id : String)
    (target : Quote) : List Action :=
  let my_orders := current_orders.filter (fun o => decide (o.token_id = token_id))
  let has_matching_bid := my_orders.any (fun o =>
    decide (o.side = Side.buy ∧ o.price = target.bid_price ∧ o.size = target.size))
  let has_matching_ask := my_orders.any (fun o =>
    decide (o.side = Side.sell ∧ o.price = target.ask_price ∧ o.size = target.size))
  if has_matching_bid && has_matching_ask && my_orders.length == 2 then
    []
  else
    my_orders.map (fun o => Action.cancel o.id) ++
      (if target.bid_price > 0 ∧ target.size > 0 then
        [Action.place token_id Side.buy target.bid_price target.size] else []) ++
      (if target.ask_price > 0 ∧ target.size > 0 then
        [Action.place token_id Side.sell target.ask_price target.size] else [])

end OrderManager

/-! ## Theorems -/

/-- A position's unrealized P&L evaluated at `mid = avg_entry` is zero. -/
lemma unrealizedPnl_avg_entry (p : InventoryPosition) :
    p.unrealizedPnl p.avg_entry = 0 := by
  unfold InventoryPosition.unrealizedPnl
  split_ifs <;> simp

/-- C3: the parameterless `should_kill_switch` evaluates every position's
unrealized P&L at `mid = avg_entry`, which is always zero, so the total is zero
and the strictly-negative-loss trigger never holds: it returns `false` for
every slice of positions and every risk config. -/
theorem kill_switch_without_prices_never_fires
    (positions : List InventoryPosition) (config : RiskConfig) :
    RiskManager.shouldKillSwitch positions config = false := by
  unfold RiskManager.shouldKillSwitch
  have hz : (positions.map (fun p => p.unrealizedPnl p.avg_entry)).sum = 0 := by
    apply List.sum_eq_zero
    intro x hx
    obtain ⟨p, _, rfl⟩ := List.mem_map.mp hx
    exact unrealizedPnl_avg_entry p
  simp [hz]

/-- C6: `RiskManager::check_order` returns a `RiskBreach` error iff
`|net_position + quote.size| > max_position_per_market` or
`|net_position - quote.size| > max_position_per_market`, and returns `Ok(())`
otherwise (it is a pure function of its inputs). -/
theorem check_order_breach_iff (inventory : InventoryPosition) (quote : Quote)
    (config : RiskConfig) :
    ((∃ msg, RiskManager.checkOrder inventory quote config =
        Except.error (RError.riskBreach msg)) ↔
      (|inventory.net_position + quote.size| > config.max_position_per_market ∨
       |inventory.net_position - quote.size| > config.max_position_per_market)) ∧
    (RiskManager.checkOrder inventory quote config = Except.ok () ↔
      ¬ (|inventory.net_position + quote.size| > config.max_position_per_market ∨
         |inventory.net_position - quote.size| > config.max_position_per_market)) := by
  by_cases h1 : |inventory.net_position + quote.size| > config.max_position_per_market <;>
    by_cases h2 : |inventory.net_position - quote.size| > config.max_position_per_market <;>
    simp [RiskManager.checkOrder, h1, h2]

/-- C10: `Quoter::quote` reads nothing from the snapshot beyond `token_id` and
`midpoint`, and nothing from the inventory beyond `net_position`: two snapshots
agreeing there and two inventories agreeing on `net_position` give identical
results under the same config. -/
theorem quote_noninterference (s1 s2 : MarketSnapshot)
    (i1 i2 : InventoryPosition) (config : MarketConfig)
    (ht : s1.token_id = s2.token_id) (hm : s1.midpoint = s2.midpoint)
    (hn : i1.net_position = i2.net_position) :
    Quoter.quote s1 i1 config = Quoter.quote s2 i2 config := by
  unfold Quoter.quote Quoter.alignedBid Quoter.alignedAsk Quoter.rawBid
    Quoter.rawAsk Quoter.halfSpread Quoter.skew Quoter.quoteSize
  rw [ht, hm, hn]

/-- Witness for C10: two snapshots for the same token and midpoint that differ
in `best_bid`, `best_ask`, `spread` and `timestamp`, and two inventories with
the same `net_position` but different `avg_entry`, `realized_pnl` and
`fill_count`, produce the same quote. -/
theorem quote_noninterference_witness :
    Quoter.quote
      { token_id := "tok", best_bid := 49/100, best_ask := 51/100,
        midpoint := 1/2, spread := 2/100, timestamp := 0 }
      { token_id := "tok", net_position := 20, avg_entry := 1/2,
        realized_pnl := 0, fill_count := 0 }
      { name := "T", token_id := "tok", spread_bps := 300, size := 10,
        max_inventory := 50, skew_factor := 1/1000 } =
    Quoter.quote
      { token_id := "tok", best_bid := 30/100, best_ask := 70/100,
        midpoint := 1/2, spread := 40/100, timestamp := 99 }
      { token_id := "tok", net_position := 20, avg_entry := 3/4,
        realized_pnl := -7, fill_count := 12 }
      { name := "T", token_id := "tok", spread_bps := 300, size := 10,
        max_inventory := 50, skew_factor := 1/1000 } :=
  quote_noninterference _ _ _ _ _ rfl rfl rfl

/-- C9: from a zeroed position, buying `X ≥ 0` at `p` and then selling `X` at
`p` returns the position to `net_position = 0` with `realized_pnl = 0`. -/
theorem inventory_round_trip (tok : String) (t1 t2 : ℕ) (X p : ℚ)
    (hX : 0 ≤ X) :
    (((InventoryPosition.new tok).applyFill
        { token_id := tok, side := Side.buy, price := p, size := X,
          timestamp := t1, is_simulated := true }).applyFill
        { token_id := tok, side := Side.sell, price := p, size := X,
          timestamp := t2, is_simulated := true }).net_position = 0 ∧
    (((InventoryPosition.new tok).applyFill
        { token_id := tok, side := Side.buy, price := p, size := X,
          timestamp := t1, is_simulated := true }).applyFill
        { token_id := tok, side := Side.sell, price := p, size := X,
          timestamp := t2, is_simulated := true }).realized_pnl = 0 := by
  rcases eq_or_lt_of_le hX with h | h
  · simp [InventoryPosition.applyFill, InventoryPosition.new, Fill.signedSize, ← h]
  · have hX0 : X ≠ 0 := ne_of_gt h
    simp only [InventoryPosition.applyFill, InventoryPosition.new, Fill.signedSize]
    simp [h, h.le, h.not_lt, h.not_le, abs_of_pos h, neg_lt_zero, hX0,
      mul_div_cancel_left₀ _ hX0]

/-- Witness for C9: buy 10 at 0.37 then sell 10 at 0.37 from a fresh position
leaves a flat book with zero realized P&L. -/
theorem inventory_round_trip_witness :
    (((InventoryPosition.new "t").applyFill
        { token_id := "t", side := Side.buy, price := 37/100, size := 10,
          timestamp := 0, is_simulated := true }).applyFill
        { token_id := "t", side := Side.sell, price := 37/100, size := 10,
          timestamp := 1, is_simulated := true }).net_position = 0 ∧
    (((InventoryPosition.new "t").applyFill
        { token_id := "t", side := Side.buy, price := 37/100, size := 10,
          timestamp := 0, is_simulated := true }).applyFill
        { token_id := "t", side := Side.sell, price := 37/100, size := 10,
          timestamp := 1, is_simulated := true }).realized_pnl = 0 :=
  inventory_round_trip "t" 0 1 10 (37/100) (by norm_num)

/-- C1: when a fill flips the position (the old and new net positions are
non-zero with opposite signs), `apply_fill` credits
`min(|s|, |p0|) * per-unit-P&L` to `realized_pnl` (Sell: `fill.price -
avg_entry`; Buy: `avg_entry - fill.price`), then resets `avg_entry` to
`fill.price` and sets `net_position = p0 + s`. -/
theorem apply_fill_flip (p : InventoryPosition) (fill : Fill)
    (hflip : (p.net_position > 0 ∧ p.net_position + fill.signedSize < 0) ∨
             (p.net_position < 0 ∧ p.net_position + fill.signedSize > 0)) :
    (p.applyFill fill).net_position = p.net_position + fill.signedSize ∧
    (p.applyFill fill).avg_entry = fill.price ∧
    (p.applyFill fill).realized_pnl = p.realized_pnl +
      min |fill.signedSize| |p.net_position| *
        (match fill.side with
         | Side.sell => fill.price - p.avg_entry
         | Side.buy => p.avg_entry - fill.price) := by
  have hincr : ¬ ((p.net_position ≥ 0 ∧ fill.signedSize > 0) ∨
      (p.net_position ≤ 0 ∧ fill.signedSize < 0)) := by
    rcases hflip with ⟨hp, hn⟩ | ⟨hp, hn⟩ <;>
      rintro (⟨h1, h2⟩ | ⟨h1, h2⟩) <;> linarith
  have hreset : (p.net_position + fill.signedSize > 0 ∧ p.net_position < 0) ∨
      (p.net_position + fill.signedSize < 0 ∧ p.net_position > 0) := by
    tauto
  simp only [InventoryPosition.applyFill]
  rw [if_neg hincr, if_pos hreset]
  exact ⟨rfl, rfl, rfl⟩

/-- Witness for C1: from a fresh position, buy 10 at 0.4 then sell 15 at 0.5
yields `net_position = -5`, `avg_entry = 0.5`, `realized_pnl = 1`. -/
theorem apply_fill_flip_witness :
    (((InventoryPosition.new "t").applyFill
        { token_id := "t", side := Side.buy, price := 2/5, size := 10,
          timestamp := 0, is_simulated := true }).applyFill
        { token_id := "t", side := Side.sell, price := 1/2, size := 15,
          timestamp := 1, is_simulated := true }).net_position = -5 ∧
    (((InventoryPosition.new "t").applyFill
        { token_id := "t", side := Side.buy, price := 2/5, size := 10,
          timestamp := 0, is_simulated := true }).applyFill
        { token_id := "t", side := Side.sell, price := 1/2, size := 15,
          timestamp := 1, is_simulated := true }).avg_entry = 1/2 ∧
    (((InventoryPosition.new "t").applyFill
        { token_id := "t", side := Side.buy, price := 2/5, size := 10,
          timestamp := 0, is_simulated := true }).applyFill
        { token_id := "t", side := Side.sell, price := 1/2, size := 15,
          timestamp := 1, is_simulated := true }).realized_pnl = 1 := by
  have h := apply_fill_flip
    ((InventoryPosition.new "t").applyFill
      { token_id := "t", side := Side.buy, price := 2/5, size := 10,
        timestamp := 0, is_simulated := true })
    { token_id := "t", side := Side.sell, price := 1/2, size := 15,
      timestamp := 1, is_simulated := true }
    (Or.inl (by norm_num [InventoryPosition.applyFill, InventoryPosition.new,
      Fill.signedSize]))
  refine ⟨?_, ?_, ?_⟩
  · rw [h.1]
    norm_num [InventoryPosition.applyFill, InventoryPosition.new, Fill.signedSize]
  · exact h.2.1
  · rw [h.2.2]
    norm_num [InventoryPosition.applyFill, InventoryPosition.new, Fill.signedSize]

/-- Unpacking `Quoter::quote` when it returns `Some`: the fields of the quote
and the guard `bid < ask`. -/
lemma quote_some_fields {snapshot : MarketSnapshot} {inventory : InventoryPosition}
    {config : MarketConfig} {q : Quote}
    (h : Quoter.quote snapshot inventory config = some q) :
    q.token_id = snapshot.token_id ∧
    q.bid_price = Quoter.alignedBid snapshot inventory config ∧
    q.ask_price = Quoter.alignedAsk snapshot inventory config ∧
    q.size = Quoter.quoteSize inventory config ∧
    Quoter.alignedBid snapshot inventory config <
      Quoter.alignedAsk snapshot inventory config := by
  simp only [Quoter.quote] at h
  split at h
  · exact absurd h (by simp)
  · next hc =>
      obtain rfl := (Option.some.inj h).symm
      exact ⟨rfl, rfl, rfl, rfl, lt_of_not_ge hc⟩

/-- `a * 100` being an integer is preserved by `min`. -/
lemma hundredInt_min {a b : ℚ} (ha : ∃ n : ℤ, a * 100 = (n : ℚ))
    (hb : ∃ n : ℤ, b * 100 = (n : ℚ)) :
    ∃ n : ℤ, (min a b) * 100 = (n : ℚ) := by
  rcases min_choice a b with h | h <;> rw [h] <;> assumption

/-- `a * 100` being an integer is preserved by `max`. -/
lemma hundredInt_max {a b : ℚ} (ha : ∃ n : ℤ, a * 100 = (n : ℚ))
    (hb : ∃ n : ℤ, b * 100 = (n : ℚ)) :
    ∃ n : ℤ, (max a b) * 100 = (n : ℚ) := by
  rcases max_choice a b with h | h <;> rw [h] <;> assumption

/-- Flooring to the 0.01 tick produces a multiple of 0.01. -/
lemma hundredInt_floorToTick (v : ℚ) :
    ∃ n : ℤ, floorToTick v (1/100) * 100 = (n : ℚ) :=
  ⟨⌊v / (1/100)⌋, by unfold floorToTick; ring⟩

/-- Ceiling to the 0.01 tick produces a multiple of 0.01. -/
lemma hundredInt_ceilToTick (v : ℚ) :
    ∃ n : ℤ, ceilToTick v (1/100) * 100 = (n : ℚ) :=
  ⟨⌈v / (1/100)⌉, by unfold ceilToTick; ring⟩

/-- The clamp `x.max(0.01).min(0.99)` lands in `[0.01, 0.99]`. -/
lemma clamp_bounds (x : ℚ) :
    1/100 ≤ min (max x (1/100)) (99/100) ∧ min (max x (1/100)) (99/100) ≤ 99/100 :=
  ⟨le_min (le_max_right _ _) (by norm_num), min_le_right _ _⟩

/-- C2: whenever `Quoter::quote` returns `Some(q)`, both prices are integer
multiples of the 0.01 tick, lie in `[0.01, 0.99]`, and satisfy
`bid < ask`; and whenever the tick-aligned clamped bid is `≥` the ask, `quote`
returns `None`. -/
theorem quote_prices_tick_aligned (snapshot : MarketSnapshot)
    (inventory : InventoryPosition) (config : MarketConfig) :
    (∀ q : Quote, Quoter.quote snapshot inventory config = some q →
      (∃ n : ℤ, q.bid_price * 100 = (n : ℚ)) ∧
      (∃ n : ℤ, q.ask_price * 100 = (n : ℚ)) ∧
      1/100 ≤ q.bid_price ∧ q.bid_price ≤ 99/100 ∧
      1/100 ≤ q.ask_price ∧ q.ask_price ≤ 99/100 ∧
      q.bid_price < q.ask_price) ∧
    (Quoter.alignedBid snapshot inventory config ≥
        Quoter.alignedAsk snapshot inventory config →
      Quoter.quote snapshot inventory config = none) := by
  constructor
  · intro q hq
    obtain ⟨-, hbid, hask, -, hlt⟩ := quote_some_fields hq
    refine ⟨?_, ?_, ?_, ?_, ?_, ?_, ?_⟩
    · rw [hbid]
      exact hundredInt_min
        (hundredInt_max (hundredInt_floorToTick _) ⟨1, by norm_num⟩)
        ⟨99, by norm_num⟩
    · rw [hask]
      exact hundredInt_min
        (hundredInt_max (hundredInt_ceilToTick _) ⟨1, by norm_num⟩)
        ⟨99, by norm_num⟩
    · rw [hbid]; exact (clamp_bounds _).1
    · rw [hbid]; exact (clamp_bounds _).2
    · rw [hask]; exact (clamp_bounds _).1
    · rw [hask]; exact (clamp_bounds _).2
    · rw [hbid, hask]; exact hlt
  · intro hge
    simp only [Quoter.quote]
    rw [if_pos hge]

/-- Witness for C2: a 3%-spread market at midpoint 0.5 with flat inventory
quotes `bid = 0.48`, `ask = 0.52`, and those prices satisfy every property of
the claim. -/
theorem quote_prices_tick_aligned_witness :
    Quoter.quote
      { token_id := "tok_test", best_bid := 49/100, best_ask := 51/100,
        midpoint := 1/2, spread := 2/100, timestamp := 0 }
      { token_id := "tok_test", net_position := 0, avg_entry := 1/2,
        realized_pnl := 0, fill_count := 0 }
      { name := "T", token_id := "tok_test", spread_bps := 300, size := 10,
        max_inventory := 50, skew_factor := 1/1000 } =
      some { token_id := "tok_test", bid_price := 12/25, ask_price := 13/25,
             size := 10 } ∧
    ((∃ n : ℤ, (12/25 : ℚ) * 100 = (n : ℚ)) ∧
      (∃ n : ℤ, (13/25 : ℚ) * 100 = (n : ℚ)) ∧
      (1/100 : ℚ) ≤ 12/25 ∧ (12/25 : ℚ) ≤ 99/100 ∧
      (1/100 : ℚ) ≤ 13/25 ∧ (13/25 : ℚ) ≤ 99/100 ∧
      (12/25 : ℚ) < 13/25) := by
  have hb : Quoter.alignedBid
      { token_id := "tok_test", best_bid := 49/100, best_ask := 51/100,
        midpoint := 1/2, spread := 2/100, timestamp := 0 }
      { token_id := "tok_test", net_position := 0, avg_entry := 1/2,
        realized_pnl := 0, fill_count := 0 }
      { name := "T", token_id := "tok_test", spread_bps := 300, size := 10,
        max_inventory := 50, skew_factor := 1/1000 } = 12/25 := by
    simp only [Quoter.alignedBid, Quoter.rawBid, Quoter.halfSpread, Quoter.skew,
      floorToTick]
    norm_num [min_def, max_def]
  have ha : Quoter.alignedAsk
      { token_id := "tok_test", best_bid := 49/100, best_ask := 51/100,
        midpoint := 1/2, spread := 2/100, timestamp := 0 }
      { token_id := "tok_test", net_position := 0, avg_entry := 1/2,
        realized_pnl := 0, fill_count := 0 }
      { name := "T", token_id := "tok_test", spread_bps := 300, size := 10,
        max_inventory := 50, skew_factor := 1/1000 } = 13/25 := by
    simp only [Quoter.alignedAsk, Quoter.rawAsk, Quoter.halfSpread, Quoter.skew,
      ceilToTick]
    norm_num [min_def, max_def]
    rw [show (⌈(103/2 : ℚ)⌉ : ℤ) = 52 from by norm_num [Int.ceil_eq_iff]]
    norm_num
  have hq : Quoter.quote
      { token_id := "tok_test", best_bid := 49/100, best_ask := 51/100,
        midpoint := 1/2, spread := 2/100, timestamp := 0 }
      { token_id := "tok_test", net_position := 0, avg_entry := 1/2,
        realized_pnl := 0, fill_count := 0 }
      { name := "T", token_id := "tok_test", spread_bps := 300, size := 10,
        max_inventory := 50, skew_factor := 1/1000 } =
      some { token_id := "tok_test", bid_price := 12/25, ask_price := 13/25,
             size := 10 } := by
    simp only [Quoter.quote]
    rw [hb, ha]
    norm_num [Quoter.quoteSize]
  refine ⟨hq, ?_⟩
  have h := (quote_prices_tick_aligned _ _ _).1 _ hq
  exact h

/-- C7: when `max_inventory > 0` and `quote` returns `Some(q)`, with
`u = |net_position| / max_inventory`: if `u ≤ 0.8` the quoted size is the
nominal `config.size`; if `u > 0.8` it is
`max(config.size * max(1 - ((u - 0.8) / 0.2) * 0.8, 0.2), 1)`. -/
theorem quote_size_throttle (snapshot : MarketSnapshot)
    (inventory : InventoryPosition) (config : MarketConfig) (q : Quote)
    (hmax : config.max_inventory > 0)
    (hq : Quoter.quote snapshot inventory config = some q) :
    (|inventory.net_position| / config.max_inventory ≤ 8/10 →
      q.size = config.size) ∧
    (8/10 < |inventory.net_position| / config.max_inventory →
      q.size = max (config.size * max
        (1 - (|inventory.net_position| / config.max_inventory - 8/10) /
          (2/10) * (8/10)) (2/10)) 1) := by
  obtain ⟨-, -, -, hsize, -⟩ := quote_some_fields hq
  rw [hsize]
  simp only [Quoter.quoteSize]
  rw [if_pos hmax]
  constructor
  · intro hu
    rw [if_neg (not_lt.mpr hu)]
  · intro hu
    rw [if_pos hu]

/-- Witness for C7: `max_inventory = 50`, `net_position = 45`, nominal size 10
(3% spread at midpoint 0.5, `skew_factor = 0.001`) quotes size 6. -/
theorem quote_size_throttle_witness :
    Quoter.quote
      { token_id := "tok_test", best_bid := 49/100, best_ask := 51/100,
        midpoint := 1/2, spread := 2/100, timestamp := 0 }
      { token_id := "tok_test", net_position := 45, avg_entry := 1/2,
        realized_pnl := 0, fill_count := 0 }
      { name := "T", token_id := "tok_test", spread_bps := 300, size := 10,
        max_inventory := 50, skew_factor := 1/1000 } =
      some { token_id := "tok_test", bid_price := 11/25, ask_price := 47/100,
             size := 6 } ∧
    ({ token_id := "tok_test", bid_price := 11/25, ask_price := 47/100,
       size := 6 } : Quote).size = 6 := by
  have hb : Quoter.alignedBid
      { token_id := "tok_test", best_bid := 49/100, best_ask := 51/100,
        midpoint := 1/2, spread := 2/100, timestamp := 0 }
      { token_id := "tok_test", net_position := 45, avg_entry := 1/2,
        realized_pnl := 0, fill_count := 0 }
      { name := "T", token_id := "tok_test", spread_bps := 300, size := 10,
        max_inventory := 50, skew_factor := 1/1000 } = 11/25 := by
    simp only [Quoter.alignedBid, Quoter.rawBid, Quoter.halfSpread, Quoter.skew,
      floorToTick]
    norm_num [min_def, max_def]
  have ha : Quoter.alignedAsk
      { token_id := "tok_test", best_bid := 49/100, best_ask := 51/100,
        midpoint := 1/2, spread := 2/100, timestamp := 0 }
      { token_id := "tok_test", net_position := 45, avg_entry := 1/2,
        realized_pnl := 0, fill_count := 0 }
      { name := "T", token_id := "tok_test", spread_bps := 300, size := 10,
        max_inventory := 50, skew_factor := 1/1000 } = 47/100 := by
    simp only [Quoter.alignedAsk, Quoter.rawAsk, Quoter.halfSpread, Quoter.skew,
      ceilToTick]
    norm_num [min_def, max_def]
  have hq : Quoter.quote
      { token_id := "tok_test", best_bid := 49/100, best_ask := 51/100,
        midpoint := 1/2, spread := 2/100, timestamp := 0 }
      { token_id := "tok_test", net_position := 45, avg_entry := 1/2,
        realized_pnl := 0, fill_count := 0 }
      { name := "T", token_id := "tok_test", spread_bps := 300, size := 10,
        max_inventory := 50, skew_factor := 1/1000 } =
      some { token_id := "tok_test", bid_price := 11/25, ask_price := 47/100,
             size := 6 } := by
    simp only [Quoter.quote]
    rw [hb, ha]
    norm_num [Quoter.quoteSize, max_def, abs_of_nonneg]
  refine ⟨hq, ?_⟩
  have h := (quote_size_throttle _ _ _ _ (by norm_num) hq).2 (by norm_num)
  refine h.trans ?_
  norm_num [max_def, abs_of_nonneg]

/-- With a non-negative skew factor, a larger net position gives a lower (or
equal) tick-aligned clamped bid. -/
lemma alignedBid_antitone (snapshot : MarketSnapshot) (config : MarketConfig)
    {i1 i2 : InventoryPosition} (hsf : 0 ≤ config.skew_factor)
    (hnet : i1.net_position ≤ i2.net_position) :
    Quoter.alignedBid snapshot i2 config ≤ Quoter.alignedBid snapshot i1 config := by
  have hraw : Quoter.rawBid snapshot i2 config ≤ Quoter.rawBid snapshot i1 config := by
    unfold Quoter.rawBid Quoter.skew
    have := mul_le_mul_of_nonneg_right hnet hsf
    linarith
  have htick : floorToTick (Quoter.rawBid snapshot i2 config) (1/100) ≤
      floorToTick (Quoter.rawBid snapshot i1 config) (1/100) := by
    unfold floorToTick
    have hdiv : Quoter.rawBid snapshot i2 config / (1/100) ≤
        Quoter.rawBid snapshot i1 config / (1/100) :=
      (div_le_div_iff_of_pos_right (by norm_num)).mpr hraw
    have hfl := Int.floor_mono hdiv
    have hcast : ((⌊Quoter.rawBid snapshot i2 config / (1/100)⌋ : ℤ) : ℚ) ≤
        ((⌊Quoter.rawBid snapshot i1 config / (1/100)⌋ : ℤ) : ℚ) := by
      exact_mod_cast hfl
    exact mul_le_mul_of_nonneg_right hcast (by norm_num)
  unfold Quoter.alignedBid
  exact min_le_min (max_le_max htick (le_refl _)) (le_refl _)

/-- With a non-negative skew factor, a larger net position gives a lower (or
equal) tick-aligned clamped ask. -/
lemma alignedAsk_antitone (snapshot : MarketSnapshot) (config : MarketConfig)
    {i1 i2 : InventoryPosition} (hsf : 0 ≤ config.skew_factor)
    (hnet : i1.net_position ≤ i2.net_position) :
    Quoter.alignedAsk snapshot i2 config ≤ Quoter.alignedAsk snapshot i1 config := by
  have hraw : Quoter.rawAsk snapshot i2 config ≤ Quoter.rawAsk snapshot i1 config := by
    unfold Quoter.rawAsk Quoter.skew
    have := mul_le_mul_of_nonneg_right hnet hsf
    linarith
  have htick : ceilToTick (Quoter.rawAsk snapshot i2 config) (1/100) ≤
      ceilToTick (Quoter.rawAsk snapshot i1 config) (1/100) := by
    unfold ceilToTick
    have hdiv : Quoter.rawAsk snapshot i2 config / (1/100) ≤
        Quoter.rawAsk snapshot i1 config / (1/100) :=
      (div_le_div_iff_of_pos_right (by norm_num)).mpr hraw
    have hfl := Int.ceil_mono hdiv
    have hcast : ((⌈Quoter.rawAsk snapshot i2 config / (1/100)⌉ : ℤ) : ℚ) ≤
        ((⌈Quoter.rawAsk snapshot i1 config / (1/100)⌉ : ℤ) : ℚ) := by
      exact_mod_cast hfl
    exact mul_le_mul_of_nonneg_right hcast (by norm_num)
  unfold Quoter.alignedAsk
  exact min_le_min (max_le_max htick (le_refl _)) (le_refl _)

/-- C8: with `skew_factor > 0` and the snapshot/config held fixed, whenever the
compared calls return `Some`: a long inventory quotes bid and ask no higher
than zero inventory, and a short inventory quotes bid and ask no lower. -/
theorem quote_skew_direction (snapshot : MarketSnapshot) (config : MarketConfig)
    (invL inv0 invS : InventoryPosition) (qL q0 qS : Quote)
    (hsf : 0 < config.skew_factor)
    (hL : 0 < invL.net_position) (h0 : inv0.net_position = 0)
    (hS : invS.net_position < 0)
    (hqL : Quoter.quote snapshot invL config = some qL)
    (hq0 : Quoter.quote snapshot inv0 config = some q0)
    (hqS : Quoter.quote snapshot invS config = some qS) :
    qL.bid_price ≤ q0.bid_price ∧ qL.ask_price ≤ q0.ask_price ∧
    q0.bid_price ≤ qS.bid_price ∧ q0.ask_price ≤ qS.ask_price := by
  obtain ⟨-, hLb, hLa, -, -⟩ := quote_some_fields hqL
  obtain ⟨-, h0b, h0a, -, -⟩ := quote_some_fields hq0
  obtain ⟨-, hSb, hSa, -, -⟩ := quote_some_fields hqS
  have h0L : inv0.net_position ≤ invL.net_position := by rw [h0]; exact hL.le
  have hS0 : invS.net_position ≤ inv0.net_position := by rw [h0]; exact hS.le
  refine ⟨?_, ?_, ?_, ?_⟩
  · rw [hLb, h0b]; exact alignedBid_antitone snapshot config hsf.le h0L
  · rw [hLa, h0a]; exact alignedAsk_antitone snapshot config hsf.le h0L
  · rw [h0b, hSb]; exact alignedBid_antitone snapshot config hsf.le hS0
  · rw [h0a, hSa]; exact alignedAsk_antitone snapshot config hsf.le hS0

/-- Witness for C8: at midpoint 0.5 with a 3% spread and `skew_factor = 0.001`,
inventory 20 quotes (0.46, 0.50), inventory 0 quotes (0.48, 0.52), inventory
−20 quotes (0.50, 0.54), and the claimed orderings hold. -/
theorem quote_skew_direction_witness :
    Quoter.quote
      { token_id := "tok_test", best_bid := 49/100, best_ask := 51/100,
        midpoint := 1/2, spread := 2/100, timestamp := 0 }
      { token_id := "tok_test", net_position := 20, avg_entry := 1/2,
        realized_pnl := 0, fill_count := 0 }
      { name := "T", token_id := "tok_test", spread_bps := 300, size := 10,
        max_inventory := 50, skew_factor := 1/1000 } =
      some { token_id := "tok_test", bid_price := 23/50, ask_price := 1/2,
             size := 10 } ∧
    Quoter.quote
      { token_id := "tok_test", best_bid := 49/100, best_ask := 51/100,
        midpoint := 1/2, spread := 2/100, timestamp := 0 }
      { token_id := "tok_test", net_position := 0, avg_entry := 3/5,
        realized_pnl := 0, fill_count := 0 }
      { name := "T", token_id := "tok_test", spread_bps := 300, size := 10,
        max_inventory := 50, skew_factor := 1/1000 } =
      some { token_id := "tok_test", bid_price := 12/25, ask_price := 13/25,
             size := 10 } ∧
    Quoter.quote
      { token_id := "tok_test", best_bid := 49/100, best_ask := 51/100,
        midpoint := 1/2, spread := 2/100, timestamp := 0 }
      { token_id := "tok_test", net_position := -20, avg_entry := 1/2,
        realized_pnl := 0, fill_count := 0 }
      { name := "T", token_id := "tok_test", spread_bps := 300, size := 10,
        max_inventory := 50, skew_factor := 1/1000 } =
      some { token_id := "tok_test", bid_price := 1/2, ask_price := 27/50,
             size := 10 } ∧
    (23/50 : ℚ) ≤ 12/25 ∧ (1/2 : ℚ) ≤ 13/25 ∧
    (12/25 : ℚ) ≤ 1/2 ∧ (13/25 : ℚ) ≤ 27/50 := by
  have hqL : Quoter.quote
      { token_id := "tok_test", best_bid := 49/100, best_ask := 51/100,
        midpoint := 1/2, spread := 2/100, timestamp := 0 }
      { token_id := "tok_test", net_position := 20, avg_entry := 1/2,
        realized_pnl := 0, fill_count := 0 }
      { name := "T", token_id := "tok_test", spread_bps := 300, size := 10,
        max_inventory := 50, skew_factor := 1/1000 } =
      some { token_id := "tok_test", bid_price := 23/50, ask_price := 1/2,
             size := 10 } := by
    have hb : Quoter.alignedBid
        { token_id := "tok_test", best_bid := 49/100, best_ask := 51/100,
          midpoint := 1/2, spread := 2/100, timestamp := 0 }
        { token_id := "tok_test", net_position := 20, avg_entry := 1/2,
          realized_pnl := 0, fill_count := 0 }
        { name := "T", token_id := "tok_test", spread_bps := 300, size := 10,
          max_inventory := 50, skew_factor := 1/1000 } = 23/50 := by
      simp only [Quoter.alignedBid, Quoter.rawBid, Quoter.halfSpread, Quoter.skew,
        floorToTick]
      norm_num [min_def, max_def]
    have ha : Quoter.alignedAsk
        { token_id := "tok_test", best_bid := 49/100, best_ask := 51/100,
          midpoint := 1/2, spread := 2/100, timestamp := 0 }
        { token_id := "tok_test", net_position := 20, avg_entry := 1/2,
          realized_pnl := 0, fill_count := 0 }
        { name := "T", token_id := "tok_test", spread_bps := 300, size := 10,
          max_inventory := 50, skew_factor := 1/1000 } = 1/2 := by
      simp only [Quoter.alignedAsk, Quoter.rawAsk, Quoter.halfSpread, Quoter.skew,
        ceilToTick]
      norm_num [min_def, max_def]
      rw [show (⌈(99/2 : ℚ)⌉ : ℤ) = 50 from by norm_num [Int.ceil_eq_iff]]
      norm_num
    simp only [Quoter.quote]
    rw [hb, ha]
    norm_num [Quoter.quoteSize, abs_of_nonneg]
  have hq0 : Quoter.quote
      { token_id := "tok_test", best_bid := 49/100, best_ask := 51/100,
        midpoint := 1/2, spread := 2/100, timestamp := 0 }
      { token_id := "tok_test", net_position := 0, avg_entry := 3/5,
        realized_pnl := 0, fill_count := 0 }
      { name := "T", token_id := "tok_test", spread_bps := 300, size := 10,
        max_inventory := 50, skew_factor := 1/1000 } =
      some { token_id := "tok_test", bid_price := 12/25, ask_price := 13/25,
             size := 10 } := by
    have hb : Quoter.alignedBid
        { token_id := "tok_test", best_bid := 49/100, best_ask := 51/100,
          midpoint := 1/2, spread := 2/100, timestamp := 0 }
        { token_id := "tok_test", net_position := 0, avg_entry := 3/5,
          realized_pnl := 0, fill_count := 0 }
        { name := "T", token_id := "tok_test", spread_bps := 300, size := 10,
          max_inventory := 50, skew_factor := 1/1000 } = 12/25 := by
      simp only [Quoter.alignedBid, Quoter.rawBid, Quoter.halfSpread, Quoter.skew,
        floorToTick]
      norm_num [min_def, max_def]
    have ha : Quoter.alignedAsk
        { token_id := "tok_test", best_bid := 49/100, best_ask := 51/100,
          midpoint := 1/2, spread := 2/100, timestamp := 0 }
        { token_id := "tok_test", net_position := 0, avg_entry := 3/5,
          realized_pnl := 0, fill_count := 0 }
        { name := "T", token_id := "tok_test", spread_bps := 300, size := 10,
          max_inventory := 50, skew_factor := 1/1000 } = 13/25 := by
      simp only [Quoter.alignedAsk, Quoter.rawAsk, Quoter.halfSpread, Quoter.skew,
        ceilToTick]
      norm_num [min_def, max_def]
      rw [show (⌈(103/2 : ℚ)⌉ : ℤ) = 52 from by norm_num [Int.ceil_eq_iff]]
      norm_num
    simp only [Quoter.quote]
    rw [hb, ha]
    norm_num [Quoter.quoteSize]
  have hqS : Quoter.quote
      { token_id := "tok_test", best_bid := 49/100, best_ask := 51/100,
        midpoint := 1/2, spread := 2/100, timestamp := 0 }
      { token_id := "tok_test", net_position := -20, avg_entry := 1/2,
        realized_pnl := 0, fill_count := 0 }
      { name := "T", token_id := "tok_test", spread_bps := 300, size := 10,
        max_inventory := 50, skew_factor := 1/1000 } =
      some { token_id := "tok_test", bid_price := 1/2, ask_price := 27/50,
             size := 10 } := by
    have hb : Quoter.alignedBid
        { token_id := "tok_test", best_bid := 49/100, best_ask := 51/100,
          midpoint := 1/2, spread := 2/100, timestamp := 0 }
        { token_id := "tok_test", net_position := -20, avg_entry := 1/2,
          realized_pnl := 0, fill_count := 0 }
        { name := "T", token_id := "tok_test", spread_bps := 300, size := 10,
          max_inventory := 50, skew_factor := 1/1000 } = 1/2 := by
      simp only [Quoter.alignedBid, Quoter.rawBid, Quoter.halfSpread, Quoter.skew,
        floorToTick]
      norm_num [min_def, max_def]
    have ha : Quoter.alignedAsk
        { token_id := "tok_test", best_bid := 49/100, best_ask := 51/100,
          midpoint := 1/2, spread := 2/100, timestamp := 0 }
        { token_id := "tok_test", net_position := -20, avg_entry := 1/2,
          realized_pnl := 0, fill_count := 0 }
        { name := "T", token_id := "tok_test", spread_bps := 300, size := 10,
          max_inventory := 50, skew_factor := 1/1000 } = 27/50 := by
      simp only [Quoter.alignedAsk, Quoter.rawAsk, Quoter.halfSpread, Quoter.skew,
        ceilToTick]
      norm_num [min_def, max_def]
      rw [show (⌈(107/2 : ℚ)⌉ : ℤ) = 54 from by norm_num [Int.ceil_eq_iff]]
      norm_num
    simp only [Quoter.quote]
    rw [hb, ha]
    norm_num [Quoter.quoteSize, abs_neg, abs_of_nonneg]
  have h := quote_skew_direction _ _ _ _ _ _ _ _ (by norm_num) (by norm_num)
    rfl (by norm_num) hqL hq0 hqS
  exact ⟨hqL, hq0, hqS, h.1, h.2.1, h.2.2.1, h.2.2.2⟩

/-- Any id filled at any point of a run of `check_fills` calls is the id of an
order present in the starting open-order list of the run. -/
lemma runFilledIds_mem {ss : List MarketSnapshot} :
    ∀ {st : List OpenOrder} {i : String},
      i ∈ PaperExecutor.runFilledIds st ss → ∃ o ∈ st, o.id = i := by
  induction ss with
  | nil =>
      intro st i h
      simp [PaperExecutor.runFilledIds] at h
  | cons s ss ih =>
      intro st i h
      simp only [PaperExecutor.runFilledIds, List.mem_append] at h
      rcases h with h | h
      · obtain ⟨o, ho, rfl⟩ := List.mem_map.mp h
        exact ⟨o, List.mem_of_mem_filter ho, rfl⟩
      · obtain ⟨o, ho, rfl⟩ := ih h
        simp only [PaperExecutor.checkFills] at ho
        exact ⟨o, List.mem_of_mem_filter ho, rfl⟩

/-- C4: under unique order ids, `check_fills` returns exactly one fill per open
order that matches the snapshot's token and crosses it, each fill at the
order's own price and size with `is_simulated = true`; exactly those orders are
removed; and an id filled now is never filled again by any later sequence of
`check_fills` calls. -/
theorem check_fills_claim (now : ℕ) (orders : List OpenOrder)
    (snapshot : MarketSnapshot)
    (hnodup : (orders.map (fun o => o.id)).Nodup) :
    (PaperExecutor.checkFills now orders snapshot).1 =
      (orders.filter (PaperExecutor.crosses snapshot)).map (PaperExecutor.fillOf now) ∧
    (∀ f ∈ (PaperExecutor.checkFills now orders snapshot).1,
      f.is_simulated = true ∧
      ∃ o ∈ orders, PaperExecutor.crosses snapshot o = true ∧
        f = PaperExecutor.fillOf now o) ∧
    (PaperExecutor.checkFills now orders snapshot).2 =
      orders.filter (fun o => ! PaperExecutor.crosses snapshot o) ∧
    (∀ snaps : List MarketSnapshot,
      ∀ i ∈ (orders.filter (PaperExecutor.crosses snapshot)).map (fun o => o.id),
        i ∉ PaperExecutor.runFilledIds
          (PaperExecutor.checkFills now orders snapshot).2 snaps) := by
  refine ⟨rfl, ?_, ?_, ?_⟩
  · intro f hf
    simp only [PaperExecutor.checkFills] at hf
    obtain ⟨o, ho, rfl⟩ := List.mem_map.mp hf
    exact ⟨rfl, o, List.mem_of_mem_filter ho, (List.mem_filter.mp ho).2, rfl⟩
  · simp only [PaperExecutor.checkFills]
    apply List.filter_congr
    intro o ho
    by_cases hc : PaperExecutor.crosses snapshot o
    · have hmem : o.id ∈ (orders.filter (PaperExecutor.crosses snapshot)).map
          (fun o => o.id) :=
        List.mem_map_of_mem _ (List.mem_filter.mpr ⟨ho, hc⟩)
      simp [hc, hmem]
    · have hnotmem : o.id ∉ (orders.filter (PaperExecutor.crosses snapshot)).map
          (fun o => o.id) := by
        intro hmem
        obtain ⟨o', ho', hoo⟩ := List.mem_map.mp hmem
        have : o' = o := List.inj_on_of_nodup_map hnodup
          (List.mem_of_mem_filter ho') ho hoo
        exact hc (this ▸ (List.mem_filter.mp ho').2)
      simp [hc, hnotmem]
  · intro snaps i hi hrun
    obtain ⟨o, ho, rfl⟩ := runFilledIds_mem hrun
    simp only [PaperExecutor.checkFills] at ho
    have hkeep := (List.mem_filter.mp ho).2
    simp only [Bool.not_eq_eq_eq_not, Bool.not_true, List.contains_eq_any_beq] at hkeep
    have : ((orders.filter (PaperExecutor.crosses snapshot)).map
        (fun o => o.id)).any (o.id == ·) = true := by
      rw [List.any_eq_true]
      exact ⟨o.id, hi, by simp⟩
    simp [this] at hkeep

/-- Witness for C4: with a crossing buy order and a non-crossing sell order,
`check_fills` fills exactly the buy at its own price, removes it, and the
filled id is never filled again (here: by a run over one more snapshot). -/
theorem check_fills_claim_witness :
    (PaperExecutor.checkFills 7
      [{ id := "paper-1", token_id := "tok1", side := Side.buy,
         price := 1/2, size := 10 },
       { id := "paper-2", token_id := "tok1", side := Side.sell,
         price := 3/5, size := 10 }]
      { token_id := "tok1", best_bid := 49/100, best_ask := 1/2,
        midpoint := 99/200, spread := 1/100, timestamp := 0 }).1 =
      [{ token_id := "tok1", side := Side.buy, price := 1/2, size := 10,
         timestamp := 7, is_simulated := true }] ∧
    (PaperExecutor.checkFills 7
      [{ id := "paper-1", token_id := "tok1", side := Side.buy,
         price := 1/2, size := 10 },
       { id := "paper-2", token_id := "tok1", side := Side.sell,
         price := 3/5, size := 10 }]
      { token_id := "tok1", best_bid := 49/100, best_ask := 1/2,
        midpoint := 99/200, spread := 1/100, timestamp := 0 }).2 =
      [{ id := "paper-2", token_id := "tok1", side := Side.sell,
         price := 3/5, size := 10 }] ∧
    "paper-1" ∉ PaperExecutor.runFilledIds
      (PaperExecutor.checkFills 7
        [{ id := "paper-1", token_id := "tok1", side := Side.buy,
           price := 1/2, size := 10 },
         { id := "paper-2", token_id := "tok1", side := Side.sell,
           price := 3/5, size := 10 }]
        { token_id := "tok1", best_bid := 49/100, best_ask := 1/2,
          midpoint := 99/200, spread := 1/100, timestamp := 0 }).2
      [{ token_id := "tok1", best_bid := 7/10, best_ask := 71/100,
         midpoint := 141/200, spread := 1/100, timestamp := 1 }] := by
  have h := check_fills_claim 7
    [{ id := "paper-1", token_id := "tok1", side := Side.buy,
       price := 1/2, size := 10 },
     { id := "paper-2", token_id := "tok1", side := Side.sell,
       price := 3/5, size := 10 }]
    { token_id := "tok1", best_bid := 49/100, best_ask := 1/2,
      midpoint := 99/200, spread := 1/100, timestamp := 0 }
    (by decide)
  refine ⟨?_, ?_, ?_⟩
  · refine h.1.trans ?_
    norm_num [PaperExecutor.crosses, PaperExecutor.fillOf, List.filter]
  · refine h.2.2.1.trans ?_
    norm_num [PaperExecutor.crosses, List.filter]
  · apply h.2.2.2
    norm_num [PaperExecutor.crosses, List.filter]

/-- C5: if the executor holds exactly two open orders for the target's token —
a Buy at the target bid price and size, and a Sell at the target ask price and
size — then `reconcile_orders` issues no `place_order` and no `cancel_order`
call at all. -/
theorem reconcile_orders_idempotent (current_orders : List OpenOrder)
    (token_id : String) (target : Quote) (b a : OpenOrder)
    (hb : b ∈ current_orders) (ha : a ∈ current_orders)
    (hbt : b.token_id = token_id) (hat : a.token_id = token_id)
    (hbside : b.side = Side.buy) (hbp : b.price = target.bid_price)
    (hbs : b.size = target.size)
    (haside : a.side = Side.sell) (hap : a.price = target.ask_price)
    (has : a.size = target.size)
    (hlen : (current_orders.filter
      (fun o => decide (o.token_id = token_id))).length = 2) :
    OrderManager.reconcileOrders current_orders token_id target = [] := by
  have hbmine : b ∈ current_orders.filter (fun o => decide (o.token_id = token_id)) :=
    List.mem_filter.mpr ⟨hb, by simp [hbt]⟩
  have hamine : a ∈ current_orders.filter (fun o => decide (o.token_id = token_id)) :=
    List.mem_filter.mpr ⟨ha, by simp [hat]⟩
  have hbid : (current_orders.filter (fun o => decide (o.token_id = token_id))).any
      (fun o => decide (o.side = Side.buy ∧ o.price = target.bid_price ∧
        o.size = target.size)) = true := by
    rw [List.any_eq_true]
    exact ⟨b, hbmine, by simp [hbside, hbp, hbs]⟩
  have hask : (current_orders.filter (fun o => decide (o.token_id = token_id))).any
      (fun o => decide (o.side = Side.sell ∧ o.price = target.ask_price ∧
        o.size = target.size)) = true := by
    rw [List.any_eq_true]
    exact ⟨a, hamine, by simp [haside, hap, has]⟩
  simp only [OrderManager.reconcileOrders]
  rw [if_pos]
  rw [hbid, hask, hlen]
  simp

/-- Witness for C5: a book holding exactly the target's bid and ask (plus an
order for a different token, which is not counted) reconciles to no action. -/
theorem reconcile_orders_idempotent_witness :
    OrderManager.reconcileOrders
      [{ id := "paper-1", token_id := "tok1", side := Side.buy,
         price := 12/25, size := 10 },
       { id := "paper-2", token_id := "tok1", side := Side.sell,
         price := 13/25, size := 10 },
       { id := "paper-3", token_id := "tok2", side := Side.buy,
         price := 1/4, size := 5 }]
      "tok1"
      { token_id := "tok1", bid_price := 12/25, ask_price := 13/25,
        size := 10 } = [] := by
  apply reconcile_orders_idempotent _ _ _
    { id := "paper-1", token_id := "tok1", side := Side.buy,
      price := 12/25, size := 10 }
    { id := "paper-2", token_id := "tok1", side := Side.sell,
      price := 13/25, size := 10 }
  · simp
  · simp
  · rfl
  · rfl
  · rfl
  · rfl
  · rfl
  · rfl
  · rfl
  · rfl
  · simp [List.filter]

end Eutrader
